import Mathlib

/-!
Verification development for the xalbrain cardiac/neuronal simulation library.

The Python source is shallowly embedded: floating-point scalars are modelled
as exact rationals, dolfin functions and vectors as explicit values or state
records, Python dictionaries as association lists, and fallible Python code
as `Except String`.  External engines (the nonlinear solver, the native
lattice integrator) are modelled as explicit function parameters.
-/

namespace Xalbrain

/-- Embedding of the dolfin constant DOLFIN_EPS = 3.0e-16
(used by beatadjoint/utils.py). -/
def DOLFIN_EPS : ℚ := 3 / 10 ^ 16

/-- Embedding of `end_of_time` from beatadjoint/utils.py:
`return (t1 + dt) > (T + dolfin.DOLFIN_EPS)`.
Float literals are modelled as exact rationals. -/
def end_of_time (T t0 t1 dt : ℚ) : Bool :=
  decide ((t1 + dt) > (T + DOLFIN_EPS))

/-- Modelled from the spec: `time_stepper` is imported from xalbrain.utils,
which is not among the provided source files.  Spec section 4.2: repeatedly
emit `(cursor, cursor + dt)` and advance the cursor; terminate when
`cursor + dt` exceeds `t1 + eps` for a small epsilon tied to floating-point
resolution (here DOLFIN_EPS, the epsilon used by the sibling boundary test
`end_of_time`).  Recursion is fuelled; `timeStepper` below supplies enough
fuel for the whole range. -/
def timeStepperAux (fuel : ℕ) (cursor t1 dt : ℚ) : List (ℚ × ℚ) :=
  match fuel with
  | 0 => []
  | fuel + 1 =>
    if cursor + dt ≤ t1 + DOLFIN_EPS then
      (cursor, cursor + dt) :: timeStepperAux fuel (cursor + dt) t1 dt
    else
      []

/-- Modelled from the spec: the sub-interval sequence produced by the
TimeStepper for `(t0, t1, dt)` (see `timeStepperAux`). -/
def timeStepper (t0 t1 dt : ℚ) : List (ℚ × ℚ) :=
  timeStepperAux ((⌈(t1 + DOLFIN_EPS - t0) / dt⌉).toNat + 1) t0 t1 dt

/-- Outcome of running the `solve` generator of a cell solver to exhaustion:
the yielded `((a, b), state)` pairs, and whether resuming the generator after
the last yield raises AssertionError. -/
structure SolveOutcome (σ : Type) where
  yields : List ((ℚ × ℚ) × σ)
  raisesAssertionError : Bool

/-- Loop body of `AbstractCellSolver.solve` (cellsolver.py): for each
time-stepper interval, `self.step(_t0, _t1)` is run, `((_t0, _t1), self.vs)`
is yielded, and then `self.vs_.assign(self.vs)` makes the previous field
equal to the current one for the next iteration. -/
def solveLoop {σ : Type} (step : ℚ → ℚ → σ → σ) :
    List (ℚ × ℚ) → σ → List ((ℚ × ℚ) × σ)
  | [], _ => []
  | (a, b) :: rest, vs =>
    let vs' := step a b vs
    ((a, b), vs') :: solveLoop step rest vs'

/-- Embedding of `AbstractCellSolver.solve` (cellsolver.py lines 105-140).
The generator iterates over `time_stepper(t0, t1, dt)`, stepping and
yielding once per sub-interval; after the loop it executes `assert False`,
so the generator always raises AssertionError when resumed past the last
interval (modelled by `raisesAssertionError := true`).  The field `step` is
the subclass step routine, acting on the solution state. -/
def solveGen {σ : Type} (step : ℚ → ℚ → σ → σ) (vs0 : σ) (t0 t1 dt : ℚ) :
    SolveOutcome σ :=
  { yields := solveLoop step (timeStepper t0 t1 dt) vs0,
    raisesAssertionError := true }

/-- Python dict membership test (`key in d`) for a string-keyed ordered
dict modelled as an association list. -/
def dictContains (m : List (String × ℚ)) (k : String) : Bool :=
  m.any (fun p => p.1 == k)

/-- Python dict assignment `d[k] = v`: replace in place when the key
exists, append otherwise (insertion order preserved, as in OrderedDict). -/
def dictSet (m : List (String × ℚ)) (k : String) (v : ℚ) : List (String × ℚ) :=
  if dictContains m k then
    m.map (fun p => if p.1 == k then (k, v) else p)
  else
    m ++ [(k, v)]

/-- Lookup of a key in a string-keyed ordered dict, as an `Option`. -/
def dictFind (m : List (String × ℚ)) (k : String) : Option ℚ :=
  (m.find? (fun p => p.1 == k)).map (fun p => p.2)

/-- Python dict subscript `d[k]`, raising KeyError when the key is absent. -/
def pyDictGet (m : List (String × ℚ)) (k : String) : Except String ℚ :=
  match dictFind m k with
  | some v => Except.ok v
  | none => Except.error ("KeyError: " ++ k)

/-- Embedding of `CellModel.set_parameters` (cellmodel.py lines 113-122).
The module-level `error` helper only prints its argument and returns, so an
unknown parameter name produces a printed message (collected in the second
component) and the assignment `self._parameters[param_name] = param_value`
still runs.  The membership test is against the map as already updated by
earlier iterations of the loop. -/
def set_parameters (parameters : List (String × ℚ))
    (updates : List (String × ℚ)) : List (String × ℚ) × List String :=
  updates.foldl
    (fun acc kv =>
      let msgs :=
        if dictContains acc.1 kv.1 then acc.2
        else acc.2 ++ [kv.1 ++ " is not a parameter in the model"]
      (dictSet acc.1 kv.1 kv.2, msgs))
    (parameters, [])

/-- Embedding of `CellModel.set_initial_conditions` (cellmodel.py lines
124-132); same structure as `set_parameters`: the `error` call prints and
the assignment still runs. -/
def set_initial_conditions (initial_conditions : List (String × ℚ))
    (updates : List (String × ℚ)) : List (String × ℚ) × List String :=
  updates.foldl
    (fun acc kv =>
      let msgs :=
        if dictContains acc.1 kv.1 then acc.2
        else acc.2 ++ [kv.1 ++ " is not a parameter in the model"]
      (dictSet acc.1 kv.1 kv.2, msgs))
    (initial_conditions, [])

namespace AdexManual

/-- Embedding of `AdexManual.default_parameters` (adex_slow.py lines
29-43), float literals as exact rationals. -/
def default_parameters : List (String × ℚ) :=
  [("C", 59), ("g_L", 29/10), ("E_L", -62), ("V_T", -42), ("Delta_T", 3),
   ("a", 16), ("tau_w", 144), ("b", 61/1000), ("spike", 20)]

/-- Embedding of `AdexManual.update` (adex_slow.py lines 83-99): the state
field is a vector of `(V, w)` pairs, one per degree of freedom; every dof
whose `V` exceeds the `spike` parameter gets `V` reset to `E_L` and `b`
added to `w`, using the flip set computed before any mutation. -/
def update (parameters : List (String × ℚ)) (vs : List (ℚ × ℚ)) :
    Except String (List (ℚ × ℚ)) := do
  let spike ← pyDictGet parameters "spike"
  let e_l ← pyDictGet parameters "E_L"
  let b ← pyDictGet parameters "b"
  Except.ok (vs.map (fun p => if p.1 > spike then (e_l, p.2 + b) else p))

end AdexManual

/-- When all three parameter lookups succeed, `AdexManual.update` is the
pointwise threshold-reset map. -/
theorem AdexManual.update_ok (ps : List (String × ℚ)) (spike e_l b : ℚ)
    (h1 : pyDictGet ps "spike" = .ok spike)
    (h2 : pyDictGet ps "E_L" = .ok e_l)
    (h3 : pyDictGet ps "b" = .ok b) (vs : List (ℚ × ℚ)) :
    AdexManual.update ps vs =
      .ok (vs.map fun p => if p.1 > spike then (e_l, p.2 + b) else p) := by
  simp only [AdexManual.update, h1, h2, h3]
  rfl

/-- One concrete cell model as registered with a dispatcher: its state
count and its `F` and `I` right-hand sides (symbolic UFL expressions in the
source, modelled as rational-valued functions of `v`, `s` and `time`). -/
structure CellModelDef where
  num_states : ℕ
  F : ℚ → List ℚ → Option ℚ → List ℚ
  I : ℚ → List ℚ → Option ℚ → ℚ

/-- Embedding of `self._key_to_cell_model = dict(zip(keys, range(len(keys))))`
from `MultiCellModel.__init__`. -/
def key_to_cell_model (keys : List ℤ) : List (ℤ × ℕ) :=
  keys.zip (List.range keys.length)

/-- Subscript into an int-keyed Python dict by a possibly-`None` index.
`d[None]` raises KeyError because `None` equals no integer key; for a
present integer key the last-inserted binding wins, as in a Python dict. -/
def pyIntDictLookup (d : List (ℤ × ℕ)) (index : Option ℤ) : Except String ℕ :=
  match index with
  | none => Except.error "KeyError: None"
  | some i =>
    match d.reverse.find? (fun p => p.1 == i) with
    | some p => Except.ok p.2
    | none => Except.error "KeyError: key not in dict"

/-- State of a constructed `MultiCellModel` (cellmodel.py lines 166-187):
the registered models, their region keys, and the distinct region tags
present in the markers MeshFunction handed to the constructor. -/
structure MultiCellModelDef where
  models : List CellModelDef
  keys : List ℤ
  markerTags : List ℤ

/-- Embedding of `MultiCellModel.__init__` (cellmodel.py lines 171-187).
It stores models, keys, the key-to-model dict and the markers, and computes
`self._num_states = max(...)`; `max` raises ValueError on an empty model
tuple.  No comparison between `markers` tags and `keys` is performed. -/
def multiCellModelInit (models : List CellModelDef) (keys : List ℤ)
    (markerTags : List ℤ) : Except String MultiCellModelDef :=
  match models with
  | [] => Except.error "ValueError: max arg is an empty sequence"
  | _ :: _ => Except.ok { models := models, keys := keys, markerTags := markerTags }

/-- Embedding of `MultiCellModel.num_states`: the maximum state count over
the registered models (`max(c.num_states() for c in self._cell_models)`). -/
def MultiCellModelDef.num_states (m : MultiCellModelDef) : ℕ :=
  (m.models.map (fun c => c.num_states)).foldl Nat.max 0

/-- Embedding of `MultiCellModel.F` (cellmodel.py lines 209-214).  When
`index` is `None` the module-level `error` helper merely prints, so control
reaches `k = self._key_to_cell_model[index]`, which raises KeyError since
`None` is not among the integer keys; otherwise the call dispatches to the
resolved model. -/
def MultiCellModelDef.F (m : MultiCellModelDef) (v : ℚ) (s : List ℚ)
    (time : Option ℚ) (index : Option ℤ) : Except String (List ℚ) :=
  (pyIntDictLookup (key_to_cell_model m.keys) index).bind (fun k =>
    match m.models.get? k with
    | some mdl => Except.ok (mdl.F v s time)
    | none => Except.error "IndexError: list index out of range")

/-- Embedding of `MultiCellModel.I` (cellmodel.py lines 216-221); same
dispatch structure as `MultiCellModelDef.F`. -/
def MultiCellModelDef.I (m : MultiCellModelDef) (v : ℚ) (s : List ℚ)
    (time : Option ℚ) (index : Option ℤ) : Except String ℚ :=
  (pyIntDictLookup (key_to_cell_model m.keys) index).bind (fun k =>
    match m.models.get? k with
    | some mdl => Except.ok (mdl.I v s time)
    | none => Except.error "IndexError: list index out of range")

/-- Reading a Python local variable: if it has not been assigned yet the
read raises UnboundLocalError. -/
def pyLocalRead {α : Type} (x : Option α) (name : String) : Except String α :=
  match x with
  | some v => Except.ok v
  | none =>
    Except.error ("UnboundLocalError: local variable " ++ name ++
      " referenced before assignment")

/-- Embedding of `MultiCellModel.initial_conditions` (cellmodel.py lines
257-284).  After constructing `n`, `VS`, `vs`, `vs_tmp`, `markers`, `u`,
`v` and `dy` (all error-free), the line `a = inner(u, v)*dy(i_k)` reads the
local variable `i_k`, which is first assigned only inside the later
per-model loop; Python therefore raises UnboundLocalError here and the
loop, the solve and the return are never reached. -/
def MultiCellModelDef.initial_conditions (m : MultiCellModelDef) :
    Except String (List ℚ) := do
  let _n := m.num_states
  let i_k : Option ℤ := none
  let _ ← pyLocalRead i_k "i_k"
  Except.ok []

/-- Embedding of the rank-0 tag check in `MultiCellSolver.__init__`
(cellsolver.py lines 472-482): gather the distinct tags of the cell
function and raise ValueError unless `set(valid_cell_tags) <= all_tags`.
Modelled for a single process, where `all_tags` is exactly the set of tags
in the cell function. -/
def multiCellSolverInitCheck (valid_cell_tags : List ℤ)
    (cell_function_tags : List ℤ) : Except String Unit :=
  if valid_cell_tags.all (fun t => cell_function_tags.contains t) then
    Except.ok ()
  else
    Except.error "ValueError: Valid cell tag not found in cell function."

/-- A 1-state cell model used as a concrete witness input. -/
def cmA : CellModelDef :=
  { num_states := 1, F := fun _ s _ => s, I := fun v _ _ => v }

/-- A 2-state cell model used as a concrete witness input. -/
def cmB : CellModelDef :=
  { num_states := 2, F := fun _ s _ => s, I := fun v _ _ => v }

/-- A dispatcher over models `cmA`, `cmB` with keys 0, 1 and marker tags
0, 1. -/
def mcmAB : MultiCellModelDef :=
  { models := [cmA, cmB], keys := [0, 1], markerTags := [0, 1] }

/-- A dispatcher over models `cmA`, `cmB` with keys 0, 1 whose markers also
contain the unregistered tag 3. -/
def mcmAB3 : MultiCellModelDef :=
  { models := [cmA, cmB], keys := [0, 1], markerTags := [0, 1, 3] }

/-- Cached PDE-step data of a `MonodomainSolver`: the stored timestep
(`self._timestep`, a dolfin Constant) and how many times the left-hand-side
operator has been assembled into `self._lhs_matrix`. -/
structure MonodomainState where
  timestep : ℚ
  lhsAssemblyCount : ℕ

/-- Embedding of `MonodomainSolver._update_lu_solver` (monodomainsolver.py
lines 511-521): when the timestep is unchanged it returns at once;
otherwise it assigns the new timestep and reassembles the left-hand-side
matrix.  (`_update_krylov_solver` has the same structure.) -/
def updateLuSolver (timestep_unchanged : Bool) (dt : ℚ)
    (st : MonodomainState) : MonodomainState :=
  if timestep_unchanged then st
  else { timestep := dt, lhsAssemblyCount := st.lhsAssemblyCount + 1 }

/-- Embedding of `MonodomainSolver.step` (monodomainsolver.py lines
476-509) restricted to the cache-relevant state: `dt = t1 - t0`,
`timestep_unchanged = (abs(dt - float(self._timestep)) < 1.e-12)`, then the
update routine runs; the subsequent right-hand-side assembly and linear
solve touch neither the stored timestep nor the lhs matrix. -/
def monodomainStep (t0 t1 : ℚ) (st : MonodomainState) : MonodomainState :=
  let dt := t1 - t0
  let timestep_unchanged := decide (|dt - st.timestep| < 1 / 10 ^ 12)
  updateLuSolver timestep_unchanged dt st

/-- Embedding of `BasicCardiacODESolver.step` (cellsolver.py lines 221-326)
at the level of the solution fields `(vs_, vs)`: `self.vs.assign(self.vs_)`
seeds the guess, then the external nonlinear solve rewrites `vs` as a
function of the previous state (the residual G depends on `vs_` and the
unknown `vs`); `vs_` is only read. -/
def basicCardiacStep {σ : Type} (nonlinearSolve : σ → σ) (fields : σ × σ) :
    σ × σ :=
  (fields.1, nonlinearSolve fields.1)

/-- Embedding of `CardiacODESolver.step` (cellsolver.py lines 434-450):
`self.vs.assign(self.vs_)`, then the point integral solver advances `vs` in
place; `vs_` is only read. -/
def cardiacODEStep {σ : Type} (piStep : σ → σ) (fields : σ × σ) : σ × σ :=
  (fields.1, piStep fields.1)

/-- Embedding of `MultiCellSolver.step` (cellsolver.py lines 511-559): the
call `self.ode_solver.solve(self.vs_.vector(), t0, t1, dt, ...)` hands the
PREVIOUS field's vector to the native lattice integrator, which advances it
in place; afterwards `self.vs.vector()[:] = self.vs_.vector()[:]` copies it
into the current field.  `latticeSolve` models the external native
integration routine. -/
def multiCellStep {σ : Type} (latticeSolve : σ → σ) (fields : σ × σ) :
    σ × σ :=
  let vsPrev := latticeSolve fields.1
  (vsPrev, vsPrev)

/-- State of one mesh degree of freedom: the potential `v` and the `n`
global state components. -/
structure DofState (n : ℕ) where
  v : ℚ
  s : Fin n → ℚ

/-- Region k of a multi-cell run: its local state count `nk` (at most the
global width `n`) and the local model right-hand sides `F` and `I`. -/
structure RegionModel (n : ℕ) where
  nk : ℕ
  hnk : nk ≤ n
  F : ℚ → (Fin nk → ℚ) → Fin nk → ℚ
  I : ℚ → (Fin nk → ℚ) → ℚ

/-- The first `nk` components of a global state vector (the code extracts
`s_mid[j] for j in range(n_k)`). -/
def restrictStates {n : ℕ} (nk : ℕ) (h : nk ≤ n) (s : Fin n → ℚ) :
    Fin nk → ℚ :=
  fun j => s (Fin.castLE h j)

/-- Per-dof residual, on region k, of the theta-method step assembled by
`BasicCardiacODESolver.step` in the MultiCellModel branch (cellsolver.py
lines 256-299).  Component for `v`: `(Dt_v - I_theta_k) - I_s` with
`I_theta_k = -I_ion(v_mid, s_mid_k)`.  Components `j < n_k`:
`Dt_s_j - F_j(v_mid, s_mid_k)`.  Components `n_k ≤ j < n`: the explicit
padding term `s[j]` added by `a_k += sum(s[j]*r[j] for j in range(n_k, n))`.
The external SNES solve is modelled as producing an exact root of this
residual. -/
def thetaStepResidual {n : ℕ} (R : RegionModel n) (Is θ dt : ℚ)
    (prev cur : DofState n) : ℚ × (Fin n → ℚ) :=
  let v_mid := θ * cur.v + (1 - θ) * prev.v
  let s_mid : Fin n → ℚ := fun j => θ * cur.s j + (1 - θ) * prev.s j
  let s_mid_k := restrictStates R.nk R.hnk s_mid
  let I_theta := -R.I v_mid s_mid_k
  ((cur.v - prev.v) / dt - I_theta - Is,
   fun j : Fin n =>
     if hj : (j : ℕ) < R.nk then
       (cur.s j - prev.s j) / dt - R.F v_mid s_mid_k ⟨j, hj⟩
     else
       cur.s j)

/-- Proposition that `cur` solves the theta step from `prev` on region k: the
assembled residual vanishes in every component. -/
def stepSolvesAt {n : ℕ} (R : RegionModel n) (Is θ dt : ℚ)
    (prev cur : DofState n) : Prop :=
  (thetaStepResidual R Is θ dt prev cur).1 = 0 ∧
  ∀ j : Fin n, (thetaStepResidual R Is θ dt prev cur).2 j = 0

/-- Concrete region model used as a witness input: 1 local state, global
width 2, zero right-hand sides. -/
def RW : RegionModel 2 :=
  { nk := 1, hnk := by norm_num, F := fun _ _ _ => 0, I := fun _ _ => 0 }

/-- The constant all-zero trajectory on a 2-wide dof state. -/
def trajW : ℕ → DofState 2 :=
  fun _ => { v := 0, s := fun _ => 0 }

/-- Unfolding lemma for one iteration of the time-stepper loop. -/
theorem timeStepperAux_succ (fuel : ℕ) (cursor t1 dt : ℚ) :
    timeStepperAux (fuel + 1) cursor t1 dt =
      if cursor + dt ≤ t1 + DOLFIN_EPS then
        (cursor, cursor + dt) :: timeStepperAux fuel (cursor + dt) t1 dt
      else [] := rfl

/-- The solve loop yields exactly one pair per interval. -/
theorem solveLoop_length {σ : Type} (step : ℚ → ℚ → σ → σ)
    (intervals : List (ℚ × ℚ)) (vs : σ) :
    (solveLoop step intervals vs).length = intervals.length := by
  induction intervals generalizing vs with
  | nil => rfl
  | cons hd tl ih => cases hd; simp [solveLoop, ih]

/-- Concrete evaluation: the time stepper on `(0, 1)` with `dt = 1/2`
produces exactly the two sub-intervals `(0, 1/2)` and `(1/2, 1)`. -/
theorem timeStepper_zero_one_half :
    timeStepper 0 1 (1/2) = [(0, 1/2), (1/2, 1)] := by
  have hfuel : (⌈((1 : ℚ) + DOLFIN_EPS - 0) / (1/2)⌉).toNat + 1 = 4 := by
    have h : (⌈((1 : ℚ) + DOLFIN_EPS - 0) / (1/2)⌉) = 3 := by
      rw [Int.ceil_eq_iff]
      norm_num [DOLFIN_EPS]
    rw [h]
    rfl
  rw [timeStepper, hfuel]
  rw [show (4 : ℕ) = 3 + 1 from rfl, timeStepperAux_succ,
    if_pos (by norm_num [DOLFIN_EPS])]
  rw [show (3 : ℕ) = 2 + 1 from rfl, timeStepperAux_succ,
    if_pos (by norm_num [DOLFIN_EPS])]
  rw [show (2 : ℕ) = 1 + 1 from rfl, timeStepperAux_succ,
    if_neg (by norm_num [DOLFIN_EPS])]
  norm_num

end Xalbrain

namespace Xalbrain

/-- Claim C5: `end_of_time(T, t0, t1, dt)` decides whether `(t0, t1)` is the
last interval by testing whether `t1 + dt` exceeds `T + DOLFIN_EPS`; for
`T = 1.0`, `dt = 0.1` it classifies `(0.9, 1.0)` as the last interval and
`(0.8, 0.9)` as not the last. -/
theorem end_of_time_boundary :
    (∀ T t0 t1 dt : ℚ,
      end_of_time T t0 t1 dt = true ↔ t1 + dt > T + DOLFIN_EPS) ∧
    end_of_time 1 (9/10) 1 (1/10) = true ∧
    end_of_time 1 (8/10) (9/10) (1/10) = false := by
  refine ⟨fun T t0 t1 dt => ?_, ?_, ?_⟩
  · simp [end_of_time]
  · simp only [end_of_time, decide_eq_true_eq]
    norm_num [DOLFIN_EPS]
  · simp only [end_of_time, decide_eq_false_iff_not]
    norm_num [DOLFIN_EPS]

/-- Claim C3: in a multi-region run, the theta-method residual on region
k's sub-domain carries the explicit padding term `s[j]` for components
`n_k ≤ j < n`, so along any trajectory in which each consecutive pair of
states solves the assembled step system (for arbitrary per-step stimulus,
theta and dt), trailing components that start at zero remain exactly zero
after any number of steps. -/
theorem region_padding_invariant {n : ℕ} (R : RegionModel n)
    (Is θ dt : ℕ → ℚ) (traj : ℕ → DofState n)
    (hinit : ∀ j : Fin n, R.nk ≤ (j : ℕ) → (traj 0).s j = 0)
    (hstep : ∀ i, stepSolvesAt R (Is i) (θ i) (dt i) (traj i) (traj (i + 1))) :
    ∀ i, ∀ j : Fin n, R.nk ≤ (j : ℕ) → (traj i).s j = 0 := by
  intro i
  cases i with
  | zero => exact hinit
  | succ m =>
    intro j hj
    have h := (hstep m).2 j
    simpa [thetaStepResidual, dif_neg (Nat.not_lt.mpr hj)] using h

/-- Witness for `region_padding_invariant`: the all-zero trajectory on the
concrete region model `RW` solves every step, and its trailing component
stays zero after three steps. -/
theorem region_padding_invariant_witness : (trajW 3).s 1 = 0 := by
  have hstep : ∀ i, stepSolvesAt RW 0 (1/2) 1 (trajW i) (trajW (i + 1)) := by
    intro i
    constructor
    · simp [thetaStepResidual, trajW, RW, restrictStates]
    · intro j
      by_cases hj : (j : ℕ) < 1 <;>
        simp [thetaStepResidual, trajW, RW, restrictStates, hj]
  exact region_padding_invariant RW (fun _ => 0) (fun _ => 1/2) (fun _ => 1)
    trajW (fun _ _ => rfl) hstep 3 1 (by decide)

/-- Evaluation of `monodomainStep` as a propositional if-then-else: the
step either hits the unchanged-timestep fast path (no reassembly) or
stores the new dt and bumps the assembly count. -/
theorem monodomainStep_eq (t0 t1 : ℚ) (st : MonodomainState) :
    monodomainStep t0 t1 st =
      if |(t1 - t0) - st.timestep| < 1 / 10 ^ 12 then st
      else MonodomainState.mk (t1 - t0) (st.lhsAssemblyCount + 1) := by
  simp only [monodomainStep, updateLuSolver]
  by_cases h : |(t1 - t0) - st.timestep| < (1 : ℚ) / 10 ^ 12
  · rw [if_pos (decide_eq_true h), if_pos h]
  · rw [if_neg (fun hc => h (of_decide_eq_true hc)), if_neg h]

/-- Claim C4: two successive `MonodomainSolver.step` calls with the same
step length leave the assembly count and the stored timestep unchanged on
the second call, and a step whose length differs from the stored timestep
by at least 1e-12 reassembles the operator once and stores the new dt. -/
theorem monodomain_step_caching (st : MonodomainState) (t0 t1 : ℚ) :
    (monodomainStep t0 t1 (monodomainStep t0 t1 st)).lhsAssemblyCount =
      (monodomainStep t0 t1 st).lhsAssemblyCount ∧
    (monodomainStep t0 t1 (monodomainStep t0 t1 st)).timestep =
      (monodomainStep t0 t1 st).timestep ∧
    (¬ |(t1 - t0) - st.timestep| < 1 / 10 ^ 12 →
      (monodomainStep t0 t1 st).lhsAssemblyCount = st.lhsAssemblyCount + 1 ∧
      (monodomainStep t0 t1 st).timestep = t1 - t0) := by
  rw [monodomainStep_eq t0 t1 st]
  by_cases h : |(t1 - t0) - st.timestep| < (1 : ℚ) / 10 ^ 12
  · rw [if_pos h, monodomainStep_eq t0 t1 st, if_pos h]
    exact ⟨rfl, rfl, fun hc => absurd h hc⟩
  · rw [if_neg h,
      monodomainStep_eq t0 t1
        (MonodomainState.mk (t1 - t0) (st.lhsAssemblyCount + 1))]
    have hzero :
        |(t1 - t0) -
            (MonodomainState.mk (t1 - t0) (st.lhsAssemblyCount + 1)).timestep| <
          (1 : ℚ) / 10 ^ 12 := by
      show |(t1 - t0) - (t1 - t0)| < (1 : ℚ) / 10 ^ 12
      rw [sub_self, abs_zero]
      norm_num
    rw [if_pos hzero]
    exact ⟨rfl, rfl, fun _ => ⟨rfl, rfl⟩⟩

/-- Witness for `monodomain_step_caching` at the concrete state with
stored timestep 1 and a step of length 2. -/
theorem monodomain_step_caching_witness :
    (monodomainStep 0 2 (MonodomainState.mk 1 0)).lhsAssemblyCount = 0 + 1 ∧
    (monodomainStep 0 2 (MonodomainState.mk 1 0)).timestep = 2 - 0 ∧
    (monodomainStep 0 2 (monodomainStep 0 2 (MonodomainState.mk 1 0))).lhsAssemblyCount =
      (monodomainStep 0 2 (MonodomainState.mk 1 0)).lhsAssemblyCount := by
  have h := monodomain_step_caching (MonodomainState.mk 1 0) 0 2
  have hd : ¬ |((2 : ℚ) - 0) - (MonodomainState.mk 1 0).timestep| < 1 / 10 ^ 12 := by
    show ¬ |((2 : ℚ) - 0) - 1| < 1 / 10 ^ 12
    rw [show ((2 : ℚ) - 0) - 1 = 1 by norm_num, abs_one]
    norm_num
  exact ⟨(h.2.2 hd).1, (h.2.2 hd).2, h.1⟩

/-- Claim C8 counterexample: for the MultiCellSolver step variant, a
native lattice routine that advances the state (here by adding 1) changes
the previous state field: at exit it is no longer its entry value. -/
theorem multicell_step_mutates_previous :
    ¬ ((multiCellStep (fun x : ℚ => x + 1) ((0 : ℚ), (0 : ℚ))).1 = (0 : ℚ)) := by
  simp [multiCellStep]

/-- Claim C8 (amended): the theta-method and point-integral step variants
leave the previous state field unchanged (it is a read-only input); the
MultiCellSolver variant instead advances the previous field in place
through the native lattice routine and copies it into the current field,
so at exit previous equals current. -/
theorem step_previous_field_effects {σ : Type} (f g h : σ → σ)
    (fields : σ × σ) :
    (basicCardiacStep f fields).1 = fields.1 ∧
    (cardiacODEStep g fields).1 = fields.1 ∧
    (multiCellStep h fields).1 = (multiCellStep h fields).2 :=
  ⟨rfl, rfl, rfl⟩

/-- Claim C6: for a dispatcher wrapping more than one cell model, calling
`F` or `I` without a region index raises immediately at the call site (the
printed usage message is followed by a KeyError from the dict subscript on
`None`); the call never dispatches to any registered model. -/
theorem multicell_F_I_require_region (m : MultiCellModelDef) (v : ℚ)
    (s : List ℚ) (t : Option ℚ) (h : 1 < m.models.length) :
    m.F v s t none = Except.error "KeyError: None" ∧
    m.I v s t none = Except.error "KeyError: None" :=
  ⟨rfl, rfl⟩

/-- Witness for `multicell_F_I_require_region` at the concrete two-model
dispatcher `mcmAB`. -/
theorem multicell_F_I_require_region_witness :
    mcmAB.F 0 [] none none = Except.error "KeyError: None" ∧
    mcmAB.I 0 [] none none = Except.error "KeyError: None" :=
  multicell_F_I_require_region mcmAB 0 [] none (by decide)

/-- Claim C10: for every constructed MultiCellModel (at least one model),
`initial_conditions` raises unconditionally before returning, because the
projection form references the loop variable `i_k` before any loop
iteration has defined it. -/
theorem multicell_initial_conditions_raises (m : MultiCellModelDef)
    (h : 1 ≤ m.models.length) :
    m.initial_conditions =
      Except.error
        "UnboundLocalError: local variable i_k referenced before assignment" :=
  rfl

/-- Witness for `multicell_initial_conditions_raises` at the concrete
dispatcher `mcmAB`. -/
theorem multicell_initial_conditions_raises_witness :
    mcmAB.initial_conditions =
      Except.error
        "UnboundLocalError: local variable i_k referenced before assignment" :=
  multicell_initial_conditions_raises mcmAB (by decide)

/-- Claim C2 counterexample: with models registered for tags 0 and 1 and
marker data containing the unregistered tag 3, both the MultiCellModel
constructor and the MultiCellSolver tag check succeed; no error is raised
at construction time, contradicting the claim. -/
theorem unregistered_tag_not_rejected :
    multiCellModelInit [cmA, cmB] [0, 1] [0, 1, 3] = Except.ok mcmAB3 ∧
    multiCellSolverInitCheck [0, 1] [0, 1, 3] = Except.ok () :=
  ⟨rfl, rfl⟩

/-- Claim C2 (amended): the construction-time check of MultiCellSolver
raises ValueError exactly when some registered valid cell tag is absent
from the mesh marker data; a marker tag that is registered to no cell model
triggers no error (and the MultiCellModel constructor checks no tags at
all). -/
theorem multicellsolver_tag_check (valid tags : List ℤ) :
    ((∀ t ∈ valid, t ∈ tags) →
      multiCellSolverInitCheck valid tags = Except.ok ()) ∧
    ((∃ t ∈ valid, t ∉ tags) →
      multiCellSolverInitCheck valid tags =
        Except.error "ValueError: Valid cell tag not found in cell function.") := by
  constructor
  · intro h
    rw [multiCellSolverInitCheck, if_pos]
    rw [List.all_eq_true]
    intro t ht
    simpa using h t ht
  · rintro ⟨t, ht, hnt⟩
    rw [multiCellSolverInitCheck, if_neg]
    rw [List.all_eq_true]
    push_neg
    exact ⟨t, ht, by simpa using hnt⟩

/-- Witness for `multicellsolver_tag_check`: the check accepts registered
tags 0, 1 with marker tags 0, 1, 3, and rejects registered tags 0, 2 with
marker tags 0, 1, 3. -/
theorem multicellsolver_tag_check_witness :
    multiCellSolverInitCheck [0, 1] [0, 1, 3] = Except.ok () ∧
    multiCellSolverInitCheck [0, 2] [0, 1, 3] =
      Except.error "ValueError: Valid cell tag not found in cell function." :=
  ⟨(multicellsolver_tag_check [0, 1] [0, 1, 3]).1 (by decide),
   (multicellsolver_tag_check [0, 2] [0, 1, 3]).2 ⟨2, by decide, by decide⟩⟩

/-- Claim C9: for the AdEx model with its default parameters (reset value
E_L = -62 below the spike threshold 20), applying the post-step `update`
hook twice consecutively equals applying it once: the second call leaves
every component unchanged. -/
theorem adex_update_idempotent (vs : List (ℚ × ℚ)) :
    (AdexManual.update AdexManual.default_parameters vs).bind
      (AdexManual.update AdexManual.default_parameters) =
    AdexManual.update AdexManual.default_parameters vs := by
  have hs : pyDictGet AdexManual.default_parameters "spike" = .ok 20 := rfl
  have he : pyDictGet AdexManual.default_parameters "E_L" = .ok (-62) := rfl
  have hb : pyDictGet AdexManual.default_parameters "b" = .ok (61/1000) := rfl
  have hff :
      ((fun p : ℚ × ℚ => if p.1 > (20:ℚ) then ((-62:ℚ), p.2 + 61/1000) else p) ∘
        (fun p : ℚ × ℚ => if p.1 > (20:ℚ) then ((-62:ℚ), p.2 + 61/1000) else p)) =
      (fun p : ℚ × ℚ => if p.1 > (20:ℚ) then ((-62:ℚ), p.2 + 61/1000) else p) := by
    funext p
    by_cases hp : p.1 > (20:ℚ)
    · simp only [Function.comp_apply, if_pos hp]
      rw [if_neg (by norm_num)]
    · simp only [Function.comp_apply, if_neg hp]
  rw [AdexManual.update_ok _ 20 (-62) (61/1000) hs he hb vs]
  show AdexManual.update AdexManual.default_parameters _ = _
  rw [AdexManual.update_ok _ 20 (-62) (61/1000) hs he hb]
  rw [List.map_map, hff]

/-- Claim C7 (code bug): `set_parameters` (and `set_initial_conditions`)
with an unknown name prints a message through the no-op `error` helper but
still applies the override, so the map does contain an entry for the
unknown name afterwards. -/
theorem set_parameters_stores_unknown_name :
    dictFind (set_parameters AdexManual.default_parameters
      [("bogus", 1)]).1 "bogus" = some 1 ∧
    (set_parameters AdexManual.default_parameters [("bogus", 1)]).2 =
      ["bogus is not a parameter in the model"] ∧
    dictFind (set_initial_conditions [("V", -62), ("w", 0)]
      [("bogus", 1)]).1 "bogus" = some 1 := by
  refine ⟨rfl, rfl, rfl⟩

/-- Claim C1 (code bug): evaluating the embedded `solve` generator at
`t0 = 0, t1 = 1, dt = 1/2` shows that it yields exactly one pair per
time-stepper sub-interval (two of them), but then executes the trailing
`assert False`, raising AssertionError instead of halting cleanly. -/
theorem solve_generator_raises_after_last_interval :
    (solveGen (fun _ _ (s : ℚ) => s) 0 0 1 (1/2)).yields.length = 2 ∧
    (timeStepper 0 1 (1/2)).length = 2 ∧
    (solveGen (fun _ _ (s : ℚ) => s) 0 0 1 (1/2)).raisesAssertionError = true := by
  refine ⟨?_, ?_, rfl⟩
  · show (solveLoop _ (timeStepper 0 1 (1/2)) 0).length = 2
    rw [solveLoop_length, timeStepper_zero_one_half]
    rfl
  · rw [timeStepper_zero_one_half]
    rfl

end Xalbrain
